import Mathlib

/-!
Verification of the derived-state engine of the proactive-resource-monitor
dashboard (src/script.js): job-health classification, alert evaluation with
notification deduplication, the cron-table filter/sort pipeline, the trend
series budget, and the line-chart axis guard.

Modelling conventions (shallow embedding of the JavaScript source):
* A JS value that the code probes for presence/truthiness is an Option; a
  missing field or a falsy status string is None (the empty string, the only
  falsy nonempty-type string, is represented by Option.some "" together with
  an explicit truthiness test, mirroring the source's !s checks).
* JS numbers that only flow through comparisons are modelled as rationals.
* Lists keep JS array order; Array.prototype.sort with a comparator is
  modelled by List.insertionSort (both are stable sorts, and every property
  proved here depends only on sortedness, not on the tie-breaking order).
-/

/-- One scheduled job as it appears in the cron_status.json snapshot: the
fields of a job object that summarizeHealth, renderCronTable and
computeAlerts actually read. -/
structure Job where
  name : Option String
  enabled : Bool
  lastRunStatus : Option String
  lastRunError : Option String
  scheduleExpr : Option String
deriving DecidableEq, Repr

/-- Lowercasing of a string, character by character, modelling the JS
String.prototype.toLowerCase calls of the source (status strings and filter
haystacks are plain ASCII, where per-character lowering is exact). -/
def strToLower (s : String) : String :=
  String.mk (s.data.map Char.toLower)

/-- Truthiness of an optional status string, as tested by the source's
!s and !j?.lastRun?.status checks: absent or empty is falsy. -/
def statusTruthy : Option String → Bool
  | none => false
  | some s => s != ""

/-- Embedding of statusLabel (script.js line 12): a falsy status renders as
the literal text "unknown", any other status is lowercased. -/
def statusLabel (s : Option String) : String :=
  if statusTruthy s then strToLower (s.getD "") else "unknown"

/-- The record returned by summarizeHealth. -/
structure HealthSummary where
  enabledCount : Nat
  okCount : Nat
  errorCount : Nat
  unknownCount : Nat
  errorJobs : List Job
deriving DecidableEq, Repr

/-- Embedding of summarizeHealth (script.js lines 58-71): filter the enabled
jobs, then take the sublists whose statusLabel is exactly the text "error",
exactly the text "ok", and whose status is falsy, and return the four counts
together with the erroring jobs. -/
def summarizeHealth (jobs : List Job) : HealthSummary :=
  let enabled := jobs.filter (fun j => j.enabled)
  let errors := enabled.filter (fun j => statusLabel j.lastRunStatus == "error")
  let ok := enabled.filter (fun j => statusLabel j.lastRunStatus == "ok")
  let unknown := enabled.filter (fun j => !statusTruthy j.lastRunStatus)
  { enabledCount := enabled.length
    okCount := ok.length
    errorCount := errors.length
    unknownCount := unknown.length
    errorJobs := errors }

/-- A concrete enabled job whose last run reports status "failed". -/
def jobFailed : Job :=
  { name := some "backup", enabled := true, lastRunStatus := some "failed"
    lastRunError := none, scheduleExpr := none }

/-- A concrete enabled job whose last run reports status "fail". -/
def jobFail : Job :=
  { name := some "sync", enabled := true, lastRunStatus := some "fail"
    lastRunError := none, scheduleExpr := none }

/-- C1: evaluation of summarizeHealth at the singleton list of an enabled job
with lastRun.status "failed". The code counts the job as enabled but places
it in none of the three status buckets, so the claimed invariant
enabledCount = okCount + errorCount + unknownCount fails: 1 is not 0 + 0 + 0.
(statusClass in the same file renders "failed" with the error pill, so the
health counts disagree with the code's own display classification.) -/
theorem summarizeHealth_failed_breaks_partition :
    (summarizeHealth [jobFailed]).enabledCount = 1 ∧
    (summarizeHealth [jobFailed]).okCount +
      (summarizeHealth [jobFailed]).errorCount +
      (summarizeHealth [jobFailed]).unknownCount = 0 := by
  decide

/-- C3: evaluation of summarizeHealth at the singleton list of an enabled job
with lastRun.status "fail". The claim (and the spec's classifier algorithm)
places "fail" in the error bucket; the code compares statusLabel to the exact
text "error" only, so the job lands in no bucket: errorCount is 0, errorJobs
is empty, and okCount is 0 as well (so it does not fall back to ok either). -/
theorem summarizeHealth_fail_not_in_error_bucket :
    (summarizeHealth [jobFail]).errorCount = 0 ∧
    (summarizeHealth [jobFail]).errorJobs = [] ∧
    (summarizeHealth [jobFail]).okCount = 0 := by
  decide

/-- The plot budget of refreshTrends (script.js line 518): const maxPlot = 720. -/
def maxPlot : Nat := 720

/-- Embedding of the series selection of refreshTrends (script.js line 519):
points = pts.length > maxPlot ? pts.slice(-maxPlot) : pts. A negative-index
slice keeps the last maxPlot elements, i.e. drops the first
pts.length - maxPlot. The selection never reads the point payload, so it is
stated for an arbitrary element type. -/
def refreshTrendsPoints {α : Type} (pts : List α) : List α :=
  if maxPlot < pts.length then pts.drop (pts.length - maxPlot) else pts

/-- Outcome of one drawLineChart call, keeping the data the function computes
after its input-dependent branching: either the "No data" text is drawn, or a
polyline is drawn with the given axis span and device coordinates. -/
inductive ChartRender where
  | noData
  | chart (span : ℚ) (coords : List (ℚ × ℚ))
deriving DecidableEq, Repr

/-- Minimum of a nonempty list of rationals, as Math.min applied to a spread
argument list (the empty case is never reached under the source's guard). -/
def listMin : List ℚ → ℚ
  | [] => 0
  | v :: vs => vs.foldl min v

/-- Maximum of a nonempty list of rationals, as Math.max applied to a spread
argument list (the empty case is never reached under the source's guard). -/
def listMax : List ℚ → ℚ
  | [] => 0
  | v :: vs => vs.foldl max v

/-- Embedding of drawLineChart (script.js lines 432-508), restricted to its
data computations. Inputs: the css width and height, the per-point metric
values (the value of points[i][valueKey] when it is a number, none
otherwise, exactly the test of lines 450 and 489), and the optional explicit
bounds opts.min and opts.max. When no valid values exist the function draws
"No data" and returns before any scaling is computed (line 467); otherwise
span = max - min || 1 (line 476), and each present point is mapped to the
coordinates of lines 479-480. -/
def drawLineChart (w h : ℚ) (points : List (Option ℚ)) (optMin optMax : Option ℚ) :
    ChartRender :=
  let pad : ℚ := 10
  let values := points.filterMap id
  if values.isEmpty then ChartRender.noData
  else
    let vmin := optMin.getD (listMin values)
    let vmax := optMax.getD (listMax values)
    let span := if vmax - vmin = 0 then 1 else vmax - vmin
    let n := points.length
    let xs := fun (i : Nat) => pad + ((w - pad * 2) * i) / (max 1 (n - 1) : Nat)
    let ys := fun (v : ℚ) => pad + (h - pad * 2) * (1 - (v - vmin) / span)
    ChartRender.chart span
      (points.enum.filterMap (fun p => p.2.map (fun v => (xs p.1, ys v))))

/-- Filter criteria as produced by getFilters (script.js lines 315-320): the
query is already trimmed and lowercased there, plus the two checkbox flags. -/
structure Filters where
  q : String
  onlyErrors : Bool
  hideDisabled : Bool
deriving DecidableEq, Repr

/-- Sort key of the cron table: a missing job name compares as the empty
string, from the a?.name || '' of script.js line 367. -/
def jobNameKey (j : Job) : String := j.name.getD ""

/-- The comparator order of script.js line 367, (a?.name || '')
.localeCompare(b?.name || ''), modelled as the lexicographic order on the
name keys. -/
def jobLe (a b : Job) : Prop := jobNameKey a ≤ jobNameKey b

instance : DecidableRel jobLe :=
  fun a b => inferInstanceAs (Decidable (jobNameKey a ≤ jobNameKey b))

instance : IsTotal Job jobLe := ⟨fun a b => le_total (jobNameKey a) (jobNameKey b)⟩

instance : IsTrans Job jobLe := ⟨fun _ _ _ => le_trans⟩

/-- Embedding of the filter predicate of renderCronTable (script.js lines
369-377): hide disabled jobs when asked, keep only jobs whose statusLabel is
the exact text "error" when asked, and when a query is present require it to
be a substring of the lowercased haystack of name, schedule expression and
last error text. -/
def jobMatches (f : Filters) (j : Job) : Bool :=
  if f.hideDisabled && !j.enabled then false
  else if f.onlyErrors && statusLabel j.lastRunStatus != "error" then false
  else if f.q != "" then
    (strToLower (jobNameKey j ++ " " ++ j.scheduleExpr.getD "" ++ " " ++
      j.lastRunError.getD "")).containsSubstr f.q.toSubstring
  else true

/-- Embedding of the job pipeline of renderCronTable (script.js lines
364-377): copy the list, sort it by name (stable comparator sort, modelled
by insertionSort), then filter by the current criteria. -/
def renderCronTableJobs (f : Filters) (jobs : List Job) : List Job :=
  (List.insertionSort jobLe jobs).filter (jobMatches f)

/-- C10: summarizeHealth only looks at jobs whose enabled flag is truthy:
it returns the same summary on a job list and on the sublist of its enabled
jobs, so a disabled job contributes to no count and never appears in
errorJobs. -/
theorem summarizeHealth_ignores_disabled (jobs : List Job) :
    summarizeHealth jobs = summarizeHealth (jobs.filter (fun j => j.enabled)) := by
  unfold summarizeHealth
  rw [List.filter_filter]
  simp

/-- C6: the trend series selection never exceeds the 720-point budget, is
always a suffix of the input (so the points that are kept appear in their
original chronological order), is the identity when the input fits the
budget, and keeps exactly 720 points when the input is longer. -/
theorem refreshTrends_budget {α : Type} (pts : List α) :
    (refreshTrendsPoints pts).length ≤ maxPlot ∧
    refreshTrendsPoints pts <:+ pts ∧
    (pts.length ≤ maxPlot → refreshTrendsPoints pts = pts) ∧
    (maxPlot < pts.length → (refreshTrendsPoints pts).length = maxPlot) := by
  unfold refreshTrendsPoints
  by_cases hlen : maxPlot < pts.length
  · have hdrop : (pts.drop (pts.length - maxPlot)).length = maxPlot := by
      rw [List.length_drop]
      exact Nat.sub_sub_self (Nat.le_of_lt hlen)
    refine ⟨?_, ?_, ?_, ?_⟩
    · simp only [if_pos hlen, hdrop, le_refl]
    · simp only [if_pos hlen]
      exact List.drop_suffix _ _
    · intro hle
      exact absurd hlen (not_lt.mpr hle)
    · intro _
      simp only [if_pos hlen, hdrop]
  · refine ⟨?_, ?_, ?_, ?_⟩
    · simp only [if_neg hlen]
      exact le_of_not_lt hlen
    · simp only [if_neg hlen]
      exact List.suffix_refl pts
    · intro _
      simp only [if_neg hlen]
    · intro hgt
      exact absurd hgt hlen

/-- C6 witness: at a 721-point input the selection keeps exactly 720 points,
and at a 5-point input it is the identity. -/
theorem refreshTrends_budget_witness :
    maxPlot < (List.replicate 721 (0 : Nat)).length ∧
    (refreshTrendsPoints (List.replicate 721 (0 : Nat))).length = maxPlot ∧
    (List.replicate 5 (0 : Nat)).length ≤ maxPlot ∧
    refreshTrendsPoints (List.replicate 5 (0 : Nat)) = List.replicate 5 0 :=
  ⟨by rw [List.length_replicate]; decide,
   (refreshTrends_budget (List.replicate 721 (0 : Nat))).2.2.2
     (by rw [List.length_replicate]; decide),
   by rw [List.length_replicate]; decide,
   (refreshTrends_budget (List.replicate 5 (0 : Nat))).2.2.1
     (by rw [List.length_replicate]; decide)⟩

/-- C9: for every point sequence and optional explicit bounds, the chart
renderer draws the defined "No data" state exactly when no valid numeric
value exists (and then computes no scaling), and otherwise draws a polyline
whose axis span is nonzero — the span = max - min || 1 guard — so the
coordinate computation never divides by zero, also when all values are
equal. -/
theorem drawLineChart_no_div_by_zero (w h : ℚ) (points : List (Option ℚ))
    (optMin optMax : Option ℚ) :
    (points.filterMap id = [] → drawLineChart w h points optMin optMax = ChartRender.noData) ∧
    (points.filterMap id ≠ [] →
      ∃ s c, drawLineChart w h points optMin optMax = ChartRender.chart s c ∧ s ≠ 0) := by
  unfold drawLineChart
  constructor
  · intro hempty
    simp [hempty]
  · intro hne
    have hbool : (points.filterMap id).isEmpty = false := by
      simpa [List.isEmpty_iff] using hne
    simp only [hbool, Bool.false_eq_true, if_false]
    refine ⟨_, _, rfl, ?_⟩
    split
    · exact one_ne_zero
    · assumption

/-- C9 witness: two equal valid values give a chart with nonzero span. -/
theorem drawLineChart_no_div_by_zero_witness :
    ([some (50 : ℚ), some 50].filterMap id ≠ []) ∧
    ∃ s c, drawLineChart 100 40 [some (50 : ℚ), some 50] none none = ChartRender.chart s c ∧
      s ≠ 0 :=
  ⟨by decide,
   (drawLineChart_no_div_by_zero 100 40 [some (50 : ℚ), some 50] none none).2 (by decide)⟩

/-- C7: for every filter criteria and job list, the cron-table pipeline's
output is sorted ascending by name key (missing names as the empty string)
regardless of the input order, and running the pipeline again on its own
output returns it unchanged (idempotence). -/
theorem renderCronTable_sorted_idempotent (f : Filters) (jobs : List Job) :
    List.Sorted jobLe (renderCronTableJobs f jobs) ∧
    renderCronTableJobs f (renderCronTableJobs f jobs) = renderCronTableJobs f jobs := by
  have hsorted : List.Sorted jobLe (renderCronTableJobs f jobs) :=
    (List.sorted_insertionSort jobLe jobs).filter (jobMatches f)
  refine ⟨hsorted, ?_⟩
  show (List.insertionSort jobLe (renderCronTableJobs f jobs)).filter (jobMatches f) = _
  rw [hsorted.insertionSort_eq, renderCronTableJobs, List.filter_filter]
  simp

/-- Severity levels of the alert engine. -/
inductive Level where
  | neutral
  | ok
  | warn
  | danger
deriving DecidableEq, Repr

/-- The text of one triggered alert condition. computeAlerts builds each text
from a fixed per-condition template plus the cited numbers, so two condition
texts coincide exactly when their constructor and numeric arguments coincide;
this inductive is that injective abstraction of the template strings. -/
inductive CondText where
  | cpuHigh (v th : ℚ)
  | memHigh (v th : ℚ)
  | diskHigh (v th : ℚ)
  | tempHigh (v th : ℚ)
  | cronFailCount (n : Nat)
  | cronUnknownCount (n : Nat)
deriving DecidableEq, Repr

/-- Which metric or cron condition a text belongs to. -/
inductive CondKind where
  | cpu
  | mem
  | disk
  | temp
  | cronFail
  | cronUnknown
deriving DecidableEq, Repr

/-- The kind of a condition text. -/
def CondText.kind : CondText → CondKind
  | cpuHigh _ _ => CondKind.cpu
  | memHigh _ _ => CondKind.mem
  | diskHigh _ _ => CondKind.disk
  | tempHigh _ _ => CondKind.temp
  | cronFailCount _ => CondKind.cronFail
  | cronUnknownCount _ => CondKind.cronUnknown

/-- One entry of the items array built by computeAlerts. -/
structure AlertItem where
  level : Level
  text : CondText
deriving DecidableEq, Repr

/-- The system metrics read by computeAlerts (script.js lines 219-222); a
field is none when it is absent or not a number (the typeof checks of lines
224-227 fail exactly then). -/
structure SystemMetrics where
  cpuUsagePct : Option ℚ
  memUsagePct : Option ℚ
  diskUsagePct : Option ℚ
  cpuTempC : Option ℚ
deriving DecidableEq, Repr

/-- The snapshot fields read by computeAlerts: system metrics (data.system
|| the empty object is the record of all-absent metrics), the job list
(data.jobs || []), and the truthiness of the top-level error and cronError
flags. -/
structure SnapshotData where
  system : SystemMetrics
  jobs : List Job
  error : Bool
  cronError : Bool
deriving DecidableEq, Repr

/-- Alert settings as produced by getAlertSettingsFromUI (script.js lines
196-205). -/
structure AlertSettings where
  enabled : Bool
  notify : Bool
  thCpu : ℚ
  thMem : ℚ
  thDisk : ℚ
  thTemp : ℚ
deriving DecidableEq, Repr

/-- The record returned by computeAlerts; the message texts are kept
verbatim. -/
structure AlertResult where
  level : Level
  items : List AlertItem
  message : Option String
deriving DecidableEq, Repr

/-- One metric condition of computeAlerts (script.js lines 224-227): a warn
item is pushed exactly when the metric is a number and is at least the
threshold. -/
def metricWarnItem (v? : Option ℚ) (th : ℚ) (mk : ℚ → ℚ → CondText) : List AlertItem :=
  match v? with
  | some v => if v ≥ th then [{ level := Level.warn, text := mk v th }] else []
  | none => []

/-- The items array computeAlerts accumulates (script.js lines 217-231), in
push order: the four metric conditions, then the cron failure condition,
then the cron not-yet-run condition. -/
def alertItems (d : SnapshotData) (st : AlertSettings) : List AlertItem :=
  metricWarnItem d.system.cpuUsagePct st.thCpu CondText.cpuHigh ++
  metricWarnItem d.system.memUsagePct st.thMem CondText.memHigh ++
  metricWarnItem d.system.diskUsagePct st.thDisk CondText.diskHigh ++
  metricWarnItem d.system.cpuTempC st.thTemp CondText.tempHigh ++
  (if (summarizeHealth d.jobs).errorCount > 0 then
    [{ level := Level.danger
       text := CondText.cronFailCount (summarizeHealth d.jobs).errorCount }] else []) ++
  (if (summarizeHealth d.jobs).enabledCount > 0 ∧ (summarizeHealth d.jobs).unknownCount > 0 then
    [{ level := Level.neutral
       text := CondText.cronUnknownCount (summarizeHealth d.jobs).unknownCount }] else [])

/-- Embedding of computeAlerts (script.js lines 207-237): disabled settings
give a neutral result with a message; a missing snapshot or a truthy
error/cronError flag gives a danger result with a message; otherwise the
items are accumulated, an empty accumulation gives the ok result, and a
nonempty one gives the worst level of the triggered items (danger before
warn before neutral) with no message. -/
def computeAlerts (data : Option SnapshotData) (st : AlertSettings) : AlertResult :=
  if !st.enabled then
    { level := Level.neutral, items := [], message := some "アラートは無効です。" }
  else
    match data with
    | none =>
      { level := Level.danger, items := []
        message := some "Cronステータスを取得できません（offline / error）" }
    | some d =>
      if d.error || d.cronError then
        { level := Level.danger, items := []
          message := some "Cronステータスを取得できません（offline / error）" }
      else
        let items := alertItems d st
        if items.isEmpty then
          { level := Level.ok, items := [], message := some "OK（閾値内）" }
        else
          let worst :=
            if items.any (fun x => x.level == Level.danger) then Level.danger
            else if items.any (fun x => x.level == Level.warn) then Level.warn
            else Level.neutral
          { level := worst, items := items, message := none }

/-- Constructor index of a condition text, first component of the sort key. -/
def CondText.idx : CondText → Nat
  | cpuHigh _ _ => 0
  | memHigh _ _ => 1
  | diskHigh _ _ => 2
  | tempHigh _ _ => 3
  | cronFailCount _ => 4
  | cronUnknownCount _ => 5

/-- Numeric components of a condition text, rest of the sort key. -/
def CondText.nums : CondText → ℚ × ℚ
  | cpuHigh v th => (v, th)
  | memHigh v th => (v, th)
  | diskHigh v th => (v, th)
  | tempHigh v th => (v, th)
  | cronFailCount n => ((n : ℚ), 0)
  | cronUnknownCount n => ((n : ℚ), 0)

/-- A linear order on condition texts, used to put the item texts of a
fingerprint into a canonical order, as the items.sort() call of script.js
line 261 does for the rendered strings. The particular order is irrelevant:
two sorted lists agree exactly when the underlying text multisets agree,
which is also when the sorted JS string arrays agree, the text encoding
being injective. -/
def condTextLe (a b : CondText) : Prop :=
  a.idx < b.idx ∨
    (a.idx = b.idx ∧
      (a.nums.1 < b.nums.1 ∨ (a.nums.1 = b.nums.1 ∧ a.nums.2 ≤ b.nums.2)))

instance : DecidableRel condTextLe := fun a b => by
  unfold condTextLe
  infer_instance

/-- Canonical ordering of the condition texts of a fingerprint. -/
def sortTexts (l : List CondText) : List CondText :=
  List.insertionSort condTextLe l

/-- Embedding of the fingerprint of maybeNotify (script.js line 261):
JSON.stringify of the level and the sorted item texts. The JSON encoding of
that pair is injective, so equality of the serialized strings is equality of
these pairs. -/
def fingerprint (r : AlertResult) : Level × List CondText :=
  (r.level, sortTexts (r.items.map (fun x => x.text)))

/-- Embedding of maybeNotify (script.js lines 255-274) as a transformer of
the module state __lastAlertFingerprint: the Option argument and first
result are the remembered fingerprint before and after the call, the two
Bool arguments are the Notification-in-window and permission-granted gates,
and the Bool result tells whether a Notification was constructed. The state
is updated whenever the gates pass and the fingerprint changed, but the
notification fires only when the level is warn or danger. -/
def maybeNotify (last : Option (Level × List CondText)) (result : AlertResult)
    (st : AlertSettings) (notifSupported permGranted : Bool) :
    Option (Level × List CondText) × Bool :=
  if !st.enabled || !st.notify then (last, false)
  else if !notifSupported then (last, false)
  else if !permGranted then (last, false)
  else
    let fp := fingerprint result
    if some fp = last then (last, false)
    else (some fp, result.level == Level.warn || result.level == Level.danger)

/-- Effect on the remembered fingerprint of the persist handler that
bindAlertControls attaches to the alerts-enabled checkbox (script.js lines
276-299): the handler saves preferences and recomputes and re-renders the
alerts, but it never writes __lastAlertFingerprint, and no other code path
in the source ever resets that variable after startup; so a change event on
the checkbox, whether it turns alerts off or back on, leaves the remembered
fingerprint unchanged. -/
def persistHandlerFingerprint (last : Option (Level × List CondText)) :
    Option (Level × List CondText) := last

/-- Settings with alerts and notifications on and the default thresholds of
getAlertSettingsFromUI. -/
def settingsOn : AlertSettings :=
  { enabled := true, notify := true, thCpu := 90, thMem := 90, thDisk := 90, thTemp := 75 }

/-- A snapshot whose only notable metric is a cpu usage of 95 percent. -/
def snapCpu95 : SnapshotData :=
  { system := { cpuUsagePct := some 95, memUsagePct := none
                diskUsagePct := none, cpuTempC := none }
    jobs := [], error := false, cronError := false }

/-- A snapshot with every metric well under the default thresholds. -/
def snapCalm : SnapshotData :=
  { system := { cpuUsagePct := some 10, memUsagePct := none
                diskUsagePct := none, cpuTempC := none }
    jobs := [], error := false, cronError := false }

/-- A snapshot whose single enabled job reports status "error". -/
def snapJobError : SnapshotData :=
  { system := { cpuUsagePct := none, memUsagePct := none
                diskUsagePct := none, cpuTempC := none }
    jobs := [{ name := some "backup", enabled := true, lastRunStatus := some "error"
               lastRunError := some "exit 1", scheduleExpr := none }]
    error := false, cronError := false }

/-- A snapshot whose single enabled job has never run and whose metrics are
all absent. -/
def snapUnknownOnly : SnapshotData :=
  { system := { cpuUsagePct := none, memUsagePct := none
                diskUsagePct := none, cpuTempC := none }
    jobs := [{ name := some "nightly", enabled := true, lastRunStatus := none
               lastRunError := none, scheduleExpr := none }]
    error := false, cronError := false }

/-- The alert result of the high-cpu snapshot under the default settings. -/
def resultWarn : AlertResult := computeAlerts (some snapCpu95) settingsOn

/-- The alert result of the calm snapshot under the default settings. -/
def resultOk : AlertResult := computeAlerts (some snapCalm) settingsOn

/-- The alert result of the failing-job snapshot under the default
settings. -/
def resultDanger : AlertResult := computeAlerts (some snapJobError) settingsOn

/-- After any evaluation whose settings gates pass, the remembered
fingerprint is the fingerprint of the evaluated result, whether or not it
already was. -/
theorem maybeNotify_state (st : AlertSettings) (h1 : st.enabled = true)
    (h2 : st.notify = true) (last : Option (Level × List CondText)) (r : AlertResult) :
    (maybeNotify last r st true true).1 = some (fingerprint r) := by
  unfold maybeNotify
  simp only [h1, h2, Bool.not_true, Bool.or_self, Bool.false_eq_true, if_false,
    Bool.not_false, Bool.true_eq_false]
  split
  · next h => exact h.symm
  · rfl

/-- C2: the code does not re-arm notification across an alerts toggle. Run
the high-cpu evaluation once (a warn-level result; the notification fires
and its fingerprint is remembered), fire the alerts-enabled change handler
twice (off, then on), and evaluate the same warn-level state again: the
remembered fingerprint is still the old one, so maybeNotify returns with no
notification, where the claim requires one. -/
theorem toggle_does_not_rearm_notification :
    resultWarn.level = Level.warn ∧
    (maybeNotify none resultWarn settingsOn true true).2 = true ∧
    maybeNotify
        (persistHandlerFingerprint (persistHandlerFingerprint
          (maybeNotify none resultWarn settingsOn true true).1))
        resultWarn settingsOn true true =
      ((maybeNotify none resultWarn settingsOn true true).1, false) := by
  decide

/-- C4 counterexample: with alerts and notifications enabled and permission
granted, start from the warn-level high-cpu state (first evaluation fires),
change to the ok-level calm state and then revert. The fingerprints of the
two states differ, so the state does change and revert, but on the change no
notification fires (the level is ok), and on the revert one fires: the
change-and-revert fires once, not the claimed twice. -/
theorem change_to_ok_fires_once_not_twice :
    resultWarn.level = Level.warn ∧
    resultOk.level = Level.ok ∧
    fingerprint resultOk ≠ fingerprint resultWarn ∧
    (maybeNotify none resultWarn settingsOn true true).2 = true ∧
    (maybeNotify (maybeNotify none resultWarn settingsOn true true).1
      resultOk settingsOn true true).2 = false ∧
    (maybeNotify
        (maybeNotify (maybeNotify none resultWarn settingsOn true true).1
          resultOk settingsOn true true).1
        resultWarn settingsOn true true).2 = true := by
  decide

/-- C4 as amended: with alerts and notifications enabled, (a) an evaluation
whose level and items are identical to the previous evaluation's never
fires, whatever came before; and (b) when the alert state changes to a
different fingerprint and then reverts, and both states are of warn or
danger level, a notification fires exactly twice: once on the change and
once on the revert. -/
theorem maybeNotify_dedup_and_revert (st : AlertSettings) (h1 : st.enabled = true)
    (h2 : st.notify = true) (last : Option (Level × List CondText))
    (r r1 r2 : AlertResult) (hl : r1.level = r.level) (hi : r1.items = r.items)
    (hwd1 : r.level = Level.warn ∨ r.level = Level.danger)
    (hwd2 : r2.level = Level.warn ∨ r2.level = Level.danger)
    (hdiff : fingerprint r2 ≠ fingerprint r) :
    (maybeNotify (maybeNotify last r st true true).1 r1 st true true).2 = false ∧
    (maybeNotify (some (fingerprint r)) r2 st true true).2 = true ∧
    (maybeNotify (maybeNotify (some (fingerprint r)) r2 st true true).1
      r st true true).2 = true := by
  have hfp : fingerprint r1 = fingerprint r := by
    unfold fingerprint
    rw [hl, hi]
  have hfire : ∀ rr : AlertResult, rr.level = Level.warn ∨ rr.level = Level.danger →
      (rr.level == Level.warn || rr.level == Level.danger) = true := by
    intro rr hrr
    cases hrr with
    | inl h => simp [h]
    | inr h => simp [h]
  refine ⟨?_, ?_, ?_⟩
  · rw [maybeNotify_state st h1 h2 last r]
    unfold maybeNotify
    simp only [h1, h2, Bool.not_true, Bool.or_self, Bool.false_eq_true, if_false,
      Bool.not_false, Bool.true_eq_false]
    rw [if_pos (by rw [hfp])]
  · unfold maybeNotify
    simp only [h1, h2, Bool.not_true, Bool.or_self, Bool.false_eq_true, if_false,
      Bool.not_false, Bool.true_eq_false]
    rw [if_neg (by simpa using hdiff)]
    exact hfire r2 hwd2
  · rw [maybeNotify_state st h1 h2 (some (fingerprint r)) r2]
    unfold maybeNotify
    simp only [h1, h2, Bool.not_true, Bool.or_self, Bool.false_eq_true, if_false,
      Bool.not_false, Bool.true_eq_false]
    rw [if_neg (by simpa using fun h => hdiff h.symm)]
    exact hfire r hwd1

/-- C4 witness: instantiated at the high-cpu warn state as previous state,
itself as the identical re-evaluation, and the failing-job danger state as
the changed state. -/
theorem maybeNotify_dedup_and_revert_witness :
    (maybeNotify (maybeNotify none resultWarn settingsOn true true).1
      resultWarn settingsOn true true).2 = false ∧
    (maybeNotify (some (fingerprint resultWarn)) resultDanger settingsOn true true).2 = true ∧
    (maybeNotify (maybeNotify (some (fingerprint resultWarn)) resultDanger settingsOn
      true true).1 resultWarn settingsOn true true).2 = true :=
  maybeNotify_dedup_and_revert settingsOn rfl rfl none resultWarn resultWarn resultDanger
    rfl rfl (Or.inl (by decide)) (Or.inr (by decide)) (by decide)

/-- A metric condition with an absent metric, or with a value strictly under
the threshold, contributes no item. -/
theorem metricWarnItem_eq_nil (v? : Option ℚ) (th : ℚ) (mk : ℚ → ℚ → CondText)
    (h : ∀ v, v? = some v → v < th) : metricWarnItem v? th mk = [] := by
  cases v? with
  | none => rfl
  | some v =>
    simp only [metricWarnItem]
    rw [if_neg (not_le.mpr (h v rfl))]

/-- C5 counterexample: the snapshot whose single enabled job has never run,
evaluated with alerts enabled and all metrics absent, triggers only the
neutral informational condition, and computeAlerts returns level neutral,
not the claimed ok. -/
theorem unknown_only_level_not_ok :
    settingsOn.enabled = true ∧
    snapUnknownOnly.error = false ∧
    snapUnknownOnly.cronError = false ∧
    (summarizeHealth snapUnknownOnly.jobs).enabledCount = 1 ∧
    (summarizeHealth snapUnknownOnly.jobs).unknownCount = 1 ∧
    ((computeAlerts (some snapUnknownOnly) settingsOn).items.all
      (fun x => x.level == Level.neutral)) = true ∧
    (computeAlerts (some snapUnknownOnly) settingsOn).level ≠ Level.ok := by
  decide

/-- C5 as amended: for every snapshot with alerts enabled, no snapshot-level
error, at least one enabled job, unknownCount positive, no job error and
every present metric strictly under its threshold (so no warn or danger
condition triggers), computeAlerts returns overall level neutral, not ok:
the neutral informational condition is the only triggered item and the
worst-of-triggered-tags rule makes it the overall level. -/
theorem computeAlerts_unknown_only_neutral (d : SnapshotData) (st : AlertSettings)
    (h1 : st.enabled = true) (h2 : d.error = false) (h3 : d.cronError = false)
    (h4 : 0 < (summarizeHealth d.jobs).enabledCount)
    (h5 : 0 < (summarizeHealth d.jobs).unknownCount)
    (h6 : (summarizeHealth d.jobs).errorCount = 0)
    (hcpu : ∀ v, d.system.cpuUsagePct = some v → v < st.thCpu)
    (hmem : ∀ v, d.system.memUsagePct = some v → v < st.thMem)
    (hdisk : ∀ v, d.system.diskUsagePct = some v → v < st.thDisk)
    (htemp : ∀ v, d.system.cpuTempC = some v → v < st.thTemp) :
    (computeAlerts (some d) st).level = Level.neutral ∧
    (computeAlerts (some d) st).level ≠ Level.ok := by
  have hitems : alertItems d st =
      [{ level := Level.neutral
         text := CondText.cronUnknownCount (summarizeHealth d.jobs).unknownCount }] := by
    unfold alertItems
    rw [metricWarnItem_eq_nil _ _ _ hcpu, metricWarnItem_eq_nil _ _ _ hmem,
      metricWarnItem_eq_nil _ _ _ hdisk, metricWarnItem_eq_nil _ _ _ htemp,
      if_neg (by simp [h6]), if_pos ⟨h4, h5⟩]
    simp
  have hlevel : (computeAlerts (some d) st).level = Level.neutral := by
    unfold computeAlerts
    simp [h1, h2, h3, hitems]
  exact ⟨hlevel, by rw [hlevel]; decide⟩

/-- C5 witness: the amended theorem applied to the never-run-job snapshot
with the default settings. -/
theorem computeAlerts_unknown_only_neutral_witness :
    (computeAlerts (some snapUnknownOnly) settingsOn).level = Level.neutral ∧
    (computeAlerts (some snapUnknownOnly) settingsOn).level ≠ Level.ok :=
  computeAlerts_unknown_only_neutral snapUnknownOnly settingsOn rfl rfl rfl
    (by decide) (by decide) (by decide)
    (by intro v h; simp [snapUnknownOnly] at h)
    (by intro v h; simp [snapUnknownOnly] at h)
    (by intro v h; simp [snapUnknownOnly] at h)
    (by intro v h; simp [snapUnknownOnly] at h)

/-- With alerts enabled and no snapshot-level error, the items of the alert
result are exactly the accumulated items, whether or not any triggered (an
empty accumulation yields the ok result whose items are also empty). -/
theorem computeAlerts_items_eq (d : SnapshotData) (st : AlertSettings)
    (h1 : st.enabled = true) (h2 : d.error = false) (h3 : d.cronError = false) :
    (computeAlerts (some d) st).items = alertItems d st := by
  unfold computeAlerts
  simp only [h1, h2, h3, Bool.not_true, Bool.false_eq_true, if_false, Bool.or_self]
  split
  · next hemp => exact (List.isEmpty_iff.mp hemp).symm
  · rfl

/-- Whether a metric segment holds an item of a given kind: it does exactly
when the segment's own kind is asked for and the metric is present and at
least the threshold. -/
theorem any_warnKind_metricWarnItem (v? : Option ℚ) (th : ℚ) (mk : ℚ → ℚ → CondText)
    (k k' : CondKind) (hk : ∀ v t, (mk v t).kind = k) :
    (metricWarnItem v? th mk).any (fun it => it.text.kind == k' && it.level == Level.warn) =
      (k == k' && v?.any (fun v => decide (v ≥ th))) := by
  cases v? with
  | none => simp [metricWarnItem, Option.any]
  | some v =>
    simp only [metricWarnItem]
    by_cases h : v ≥ th
    · rw [if_pos h]
      simp [Option.any, hk, h]
    · rw [if_neg h]
      simp [Option.any, h]

/-- The cron failure segment never holds a warn-level item (its item is
danger-tagged). -/
theorem any_warnKind_cronFail (n : Nat) (b : Prop) [Decidable b] (k' : CondKind) :
    ((if b then [({ level := Level.danger, text := CondText.cronFailCount n } : AlertItem)]
      else []).any (fun it => it.text.kind == k' && it.level == Level.warn)) = false := by
  split <;> simp

/-- The cron not-yet-run segment never holds a warn-level item (its item is
neutral-tagged). -/
theorem any_warnKind_cronUnknown (n : Nat) (b : Prop) [Decidable b] (k' : CondKind) :
    ((if b then [({ level := Level.neutral, text := CondText.cronUnknownCount n } : AlertItem)]
      else []).any (fun it => it.text.kind == k' && it.level == Level.warn)) = false := by
  split <;> simp

/-- C8: with alerts enabled and no snapshot-level error, each of the four
metric warn conditions appears among the result items exactly when its
metric is present as a number and is at least its configured threshold; in
particular an absent or non-numeric metric never triggers its condition. -/
theorem computeAlerts_metric_conditions (d : SnapshotData) (st : AlertSettings)
    (h1 : st.enabled = true) (h2 : d.error = false) (h3 : d.cronError = false) :
    ((computeAlerts (some d) st).items.any
        (fun it => it.text.kind == CondKind.cpu && it.level == Level.warn) = true ↔
      ∃ v, d.system.cpuUsagePct = some v ∧ v ≥ st.thCpu) ∧
    ((computeAlerts (some d) st).items.any
        (fun it => it.text.kind == CondKind.mem && it.level == Level.warn) = true ↔
      ∃ v, d.system.memUsagePct = some v ∧ v ≥ st.thMem) ∧
    ((computeAlerts (some d) st).items.any
        (fun it => it.text.kind == CondKind.disk && it.level == Level.warn) = true ↔
      ∃ v, d.system.diskUsagePct = some v ∧ v ≥ st.thDisk) ∧
    ((computeAlerts (some d) st).items.any
        (fun it => it.text.kind == CondKind.temp && it.level == Level.warn) = true ↔
      ∃ v, d.system.cpuTempC = some v ∧ v ≥ st.thTemp) := by
  rw [computeAlerts_items_eq d st h1 h2 h3]
  unfold alertItems
  simp only [List.any_append,
    any_warnKind_metricWarnItem _ _ CondText.cpuHigh CondKind.cpu _ (fun v t => rfl),
    any_warnKind_metricWarnItem _ _ CondText.memHigh CondKind.mem _ (fun v t => rfl),
    any_warnKind_metricWarnItem _ _ CondText.diskHigh CondKind.disk _ (fun v t => rfl),
    any_warnKind_metricWarnItem _ _ CondText.tempHigh CondKind.temp _ (fun v t => rfl),
    any_warnKind_cronFail, any_warnKind_cronUnknown]
  refine ⟨?_, ?_, ?_, ?_⟩
  · cases hc : d.system.cpuUsagePct <;> simp [Option.any, CondText.kind]
  · cases hc : d.system.memUsagePct <;> simp [Option.any, CondText.kind]
  · cases hc : d.system.diskUsagePct <;> simp [Option.any, CondText.kind]
  · cases hc : d.system.cpuTempC <;> simp [Option.any, CondText.kind]

/-- C8 witness: the high-cpu snapshot under the default settings has the cpu
condition triggered (95 is at least the threshold 90) and, its temperature
being absent, no temperature condition. -/
theorem computeAlerts_metric_conditions_witness :
    ((computeAlerts (some snapCpu95) settingsOn).items.any
      (fun it => it.text.kind == CondKind.cpu && it.level == Level.warn) = true) ∧
    ¬ ∃ v, snapCpu95.system.cpuTempC = some v ∧ v ≥ settingsOn.thTemp :=
  ⟨(computeAlerts_metric_conditions snapCpu95 settingsOn rfl rfl rfl).1.mpr
      ⟨95, rfl, by norm_num [settingsOn]⟩,
   fun h =>
    absurd ((computeAlerts_metric_conditions snapCpu95 settingsOn rfl rfl rfl).2.2.2.mpr h)
      (by decide)⟩
